import Mathlib

/-!
Formal model of the WiFi smartcard main module (gpg/main/gpg.c).

The file embeds, as executable Lean definitions, the control flow of the
main firmware file: the per-connection session loop of taskConnect
(socket setup, APDU receive, the confirmation-button gate, command
processing, response write), the WiFi event handler's round-robin
network selection, the boot-time provisioning branch of taskConnect,
the fatal-error handling paths (the exit label of taskConnect and the
mount-failure branch of app_main), and the checkReset monitor together
with the two writers of the hardRst flag.  External collaborators
(parseAPDU, process, restoreState, the NVS and socket primitives) are
abstracted as parameters or as event outcomes; their results feed the
embedded control flow exactly where the C code consumes them.
-/

/-- One parsed APDU command, as produced by the external parseAPDU
(libAPDU): class byte, instruction byte, parameters, data field and
expected response length.  Byte fields are modelled as Nat. -/
structure Apdu where
  CLA : Nat
  INS : Nat
  P1 : Nat
  P2 : Nat
  P1P2 : Nat
  Lc : Nat
  data : List Nat
  Le : Nat
deriving DecidableEq

/-- Response buffer (outData of libAPDU): payload bytes and the length
field set by process or by the lockout path. -/
structure OutData where
  data : List Nat
  length : Nat
deriving DecidableEq

/-- The bytes a successful write(sockfd, output.data, output.length)
sends: the first output.length bytes of the buffer. -/
def writtenBytes (o : OutData) : List Nat := o.data.take o.length

/-- The synthesized lockout response of gpg.c lines 271-273:
data[0] = 0x69, data[1] = 0x83, length = 2 (SW_AUTHENTICATION_BLOCKED). -/
def lockoutOut : OutData := ⟨[0x69, 0x83], 2⟩

/-- The sensitivity test of gpg.c line 256:
(comAPDU.CLA != 0x10) & (comAPDU.INS == 0x88 || comAPDU.INS == 0x2A).
The bitwise & of the two 0/1-valued operands coincides with logical
conjunction, which is how it is rendered here. -/
def sensitiveCheck (a : Apdu) : Bool :=
  (a.CLA != 0x10) && (a.INS == 0x88 || a.INS == 0x2A)

/-- The loop bound of the confirmation wait (gpg.c line 260: time < 30). -/
def gateDeadline : Nat := 30

/-- Each wait iteration delays twice for 250 ms (gpg.c lines 263 and 266). -/
def gatePollHalfPeriodMs : Nat := 250

/-- The confirmation wait loop of gpg.c lines 258-268.  The C code first
clears proceed, then runs: while (proceed == 0 && time < 30) time++.
Here sig t is the value of the proceed flag observed at the poll with
counter value t (the flag is set asynchronously by the button interrupt
and is never cleared during the wait).  The second argument is the
current time counter, the third the remaining iterations before the
counter reaches gateDeadline; the function returns the final value of
the time counter. -/
def gateLoop (sig : Nat → Bool) : Nat → Nat → Nat
  | time, 0 => time
  | time, remaining + 1 => if sig time then time else gateLoop sig (time + 1) remaining

/-- The full confirmation wait: the time counter starts at 0 and the
loop runs until the flag is seen or the counter reaches gateDeadline.
The lockout decision of gpg.c line 270 is the test: result = 30. -/
def gateWait (sig : Nat → Bool) : Nat := gateLoop sig 0 gateDeadline

/-- Where control goes when one pass of the taskConnect session body
ends: back to the label begin (the blocking wait on the connectivity
bit) or to the label at the end of taskConnect that performs the
controlled restart. -/
inductive SessionExit where
  | toBegin
  | gotoRestart
deriving DecidableEq

/-- The environment of one pass of the session body: whether socket()
succeeded (sockfd >= 0), whether connect() returned 0, the APDU that
parseAPDU produced from the received bytes, the observed proceed-flag
schedule for the confirmation wait, and whether write() succeeded. -/
structure SessionEnv where
  sockOk : Bool
  connectOk : Bool
  apdu : Apdu
  sig : Nat → Bool
  writeOk : Bool

/-- Observable outcome of one pass of the session body: how many times
process was invoked, whether the confirmation gate was entered, the
response buffer passed to write (none when no write is reached),
whether invalidate() ran on this pass, and where control goes next. -/
structure SessionTrace where
  processCount : Nat
  gateEntered : Bool
  attemptedWrite : Option OutData
  invalidated : Bool
  control : SessionExit
deriving DecidableEq

/-- One pass of the body of the while(1) loop of taskConnect
(gpg.c lines 208-332), with the external command processor abstracted
as proc.  Branches in source order: socket() failure goes to the exit
label (line 220); connect() failure invalidates, closes and jumps back
to begin (lines 224-232); a parsed instruction byte of 0 invalidates,
closes and jumps back to begin (lines 239-243); a sensitive command
runs the confirmation wait and on timeout writes the lockout response
while skipping process (lines 256-275); otherwise process runs once
(line 286); finally write() failure goes to the exit label and success
closes and loops (lines 324-331). -/
def sessionIter (proc : Apdu → OutData) (env : SessionEnv) : SessionTrace :=
  if !env.sockOk then ⟨0, false, none, false, .gotoRestart⟩
  else if !env.connectOk then ⟨0, false, none, true, .toBegin⟩
  else if env.apdu.INS == 0 then ⟨0, false, none, true, .toBegin⟩
  else if sensitiveCheck env.apdu then
    if gateWait env.sig == gateDeadline then
      ⟨0, true, some lockoutOut, false, if env.writeOk then .toBegin else .gotoRestart⟩
    else
      ⟨1, true, some (proc env.apdu), false, if env.writeOk then .toBegin else .gotoRestart⟩
  else
    ⟨1, false, some (proc env.apdu), false, if env.writeOk then .toBegin else .gotoRestart⟩

/-- A concrete stand-in for the external command processor: any command
it sees is answered with status 0x9000. -/
def procStub : Apdu → OutData := fun _ => ⟨[0x90, 0x00], 2⟩

/-- A sensitive PSO command: class 0x00, instruction 0x2A. -/
def apduSign : Apdu := ⟨0x00, 0x2A, 0, 0, 0, 0, [], 0⟩

/-- A sensitive internal-authenticate command: class 0x00, instruction 0x88. -/
def apduAuth : Apdu := ⟨0x00, 0x88, 0, 0, 0, 0, [], 0⟩

/-- A non-sensitive get-challenge command: class 0x00, instruction 0x84. -/
def apduChal : Apdu := ⟨0x00, 0x84, 0, 0, 0, 0, [], 0⟩

/-- The zero-instruction parse result that signals nothing to process. -/
def apduNull : Apdu := ⟨0x00, 0x00, 0, 0, 0, 0, [], 0⟩

/-- Session environment for the never-confirmed scenario: sockets fine,
sensitive command, the proceed flag never observed set, write succeeds. -/
def envLockout : SessionEnv := ⟨true, true, apduSign, fun _ => false, true⟩

/-- Session environment for the confirmed scenario: the proceed flag is
observed set at poll 6 (3 seconds into the wait). -/
def envConfirmed : SessionEnv := ⟨true, true, apduAuth, fun t => t == 6, true⟩

/-- Session environment receiving the zero-instruction parse result. -/
def envNull : SessionEnv := ⟨true, true, apduNull, fun _ => false, true⟩

/-- Session environment in which the response write fails on a
non-sensitive command. -/
def envWriteFail : SessionEnv := ⟨true, true, apduChal, fun _ => false, false⟩

/-- Session environment in which the response write fails on a chained
command (class 0x10) carrying a sensitive instruction byte. -/
def envWriteFailChained : SessionEnv := ⟨true, true, ⟨0x10, 0x88, 0, 0, 0, 0, [], 0⟩, fun _ => false, false⟩

/-- The index state of the WiFi event handler: currNet is the network
being attempted or used, nextNet the one to select at the next attempt
(both declared in netlist.h and driven by event_handler in gpg.c);
connected mirrors the connected status byte and connUpBit the
CONNECTED_BIT of the event group. -/
structure NetState where
  currNet : Nat
  nextNet : Nat
  connected : Bool
  connUpBit : Bool
deriving DecidableEq

/-- The three WiFi events event_handler reacts to (gpg.c lines 125-153):
station start, address acquisition, and link disconnect. -/
inductive WifiEvent where
  | staStart
  | gotIP
  | disconnected
deriving DecidableEq

/-- One step of event_handler (gpg.c lines 122-155), parametric in the
number N of candidate networks (NUMOFNETS of netlist.h).  Station start
and disconnect both select currNet = nextNet and advance
nextNet = (nextNet + 1) mod N; address acquisition sets the connected
flag and the event-group bit; disconnect additionally clears both. -/
def handleEvent (N : Nat) (s : NetState) : WifiEvent → NetState
  | .staStart => ⟨s.nextNet, (s.nextNet + 1) % N, s.connected, s.connUpBit⟩
  | .gotIP => { s with connected := true, connUpBit := true }
  | .disconnected => ⟨s.nextNet, (s.nextNet + 1) % N, false, false⟩

/-- Fold of handleEvent over a list of WiFi events in arrival order. -/
def runEvents (N : Nat) : NetState → List WifiEvent → NetState
  | s, [] => s
  | s, e :: es => runEvents N (handleEvent N s e) es

/-- The state at initWiFi (gpg.c line 158): nextNet = 0; currNet has
whatever value netlist.h gave it, it is first written at station start. -/
def initNetState (c0 : Nat) : NetState := ⟨c0, 0, false, false⟩

/-- Outcome of nvs_get_u8 on the key named initialized: ESP_OK,
ESP_ERR_NVS_NOT_FOUND, or any other error code. -/
inductive NvsGetResult where
  | ok
  | notFound
  | otherErr
deriving DecidableEq

/-- Where the boot-time provisioning branch of taskConnect leaves
control: falling through into the while(1) session loop, or at the
exit label that performs the controlled restart. -/
inductive BootOutcome where
  | serve
  | restartExit
deriving DecidableEq

/-- Observable outcome of the provisioning branch: whether the external
first-run provisioning procedure ran, whether restoreState ran, whether
the hardRst flag was set on the way out, and where control went. -/
structure BootTrace where
  ranInit : Bool
  ranRestore : Bool
  setHardRst : Bool
  outcome : BootOutcome
deriving DecidableEq

/-- The provisioning branch of taskConnect (gpg.c lines 181-206).
If nvs_open fails, goto exit.  Otherwise switch on the nvs_get_u8
result: ESP_OK runs restoreState, whose nonzero return sets hardRst and
goes to exit; ESP_ERR_NVS_NOT_FOUND runs the first-run provisioning
procedure, whose nonzero return goes to exit; any other error goes to
exit.  Falling out of the switch reaches the session loop.  The two
external procedures are abstracted by their integer returns. -/
def bootProvisioning (openOk : Bool) (getRes : NvsGetResult)
    (restoreRet initRet : Nat) : BootTrace :=
  if !openOk then ⟨false, false, false, .restartExit⟩
  else
    match getRes with
    | .ok =>
      if restoreRet != 0 then ⟨false, true, true, .restartExit⟩
      else ⟨false, true, false, .serve⟩
    | .notFound =>
      if initRet != 0 then ⟨true, false, false, .restartExit⟩
      else ⟨true, false, false, .serve⟩
    | .otherErr => ⟨false, false, false, .restartExit⟩

/-- The fatal conditions named by the error-handling design: the three
provisioning failures and the socket allocation failure all reach the
exit label of taskConnect; the mount failure is the app_main branch. -/
inductive FatalKind where
  | provisioningReadFail
  | initFail
  | restoreFail
  | socketAllocFail
  | mountFail
deriving DecidableEq

/-- What a fatal-condition handler does: seconds of countdown before
acting, whether it unmounts the FAT filesystem, whether it calls
esp_restart, and whether it instead terminates the process. -/
structure FatalHandling where
  countdownSeconds : Nat
  unmountsStorage : Bool
  processRestart : Bool
  exitsProcess : Bool
deriving DecidableEq

/-- The exit label of taskConnect (gpg.c lines 334-341): a 3-iteration
countdown of 1 s each, unmountFS(), esp_restart(). -/
def taskExitPath : FatalHandling := ⟨3, true, true, false⟩

/-- The mount-failure branch of app_main (gpg.c lines 373-375):
if mountFS() fails the process terminates at once with status 0,
with no countdown, no unmount and no restart. -/
def mountFailPath : FatalHandling := ⟨0, false, false, true⟩

/-- Which handler each fatal condition reaches in the source: every
taskConnect fatal path funnels into the exit label, while the boot
mount failure takes the app_main branch. -/
def handleFatal : FatalKind → FatalHandling
  | .mountFail => mountFailPath
  | _ => taskExitPath

/-- Device-level state for the hard-reset analysis: the hardRst flag,
a history bit recording whether the physical hard-reset input handler
ever ran, whether the key named initialized is present in NVS, a
history bit recording whether nvs_erase_key on it ever succeeded, and
whether esp_restart was reached. -/
structure DeviceState where
  hardRst : Bool
  physPressed : Bool
  keyPresent : Bool
  keyErased : Bool
  restarted : Bool
deriving DecidableEq

/-- The three actions that touch the hardRst flag or the persisted key:
the hard-reset button interrupt (gpg.c line 67), the restore-failure
branch of taskConnect that sets hardRst = 1 (gpg.c line 193, reachable
only when the key was present so that restoreState ran), and one poll
iteration of checkReset with the given nvs_open outcome. -/
inductive DevEvent where
  | physReset
  | restoreFailure
  | monitorPoll (openOk : Bool)
deriving DecidableEq

/-- One step of the device under an event.  A poll iteration of
checkReset (gpg.c lines 345-356) acts only while the device has not yet
restarted and hardRst is set: when nvs_open succeeds and the key is
present, nvs_erase_key succeeds and the branch unmounts and restarts;
when the key is absent nvs_erase_key returns ESP_ERR_NVS_NOT_FOUND and
nothing happens.  The flag is never cleared anywhere. -/
def devStep (s : DeviceState) : DevEvent → DeviceState
  | .physReset => { s with hardRst := true, physPressed := true }
  | .restoreFailure =>
    if s.keyPresent && !s.restarted then { s with hardRst := true } else s
  | .monitorPoll openOk =>
    if !s.restarted && s.hardRst && openOk && s.keyPresent then
      { s with keyPresent := false, keyErased := true, restarted := true }
    else s

/-- Fold of devStep over a list of events in occurrence order. -/
def devRun : DeviceState → List DevEvent → DeviceState
  | s, [] => s
  | s, e :: es => devRun (devStep s e) es

/-- A provisioned device at boot: flag clear, key present, nothing
erased, not restarted. -/
def provisionedBoot : DeviceState := ⟨false, false, true, false, false⟩

/-- A device whose hardRst flag was set by the physical input while the
key named initialized is absent from NVS. -/
def unprovisionedWithReset : DeviceState := ⟨true, true, false, false, false⟩

/-- The poll period of checkReset (gpg.c line 355). -/
def checkResetDelayMs : Nat := 4000

theorem gateLoop_never (sig : Nat → Bool) :
    ∀ remaining time, (∀ t, t < time + remaining → sig t = false) →
      gateLoop sig time remaining = time + remaining := by
  intro remaining
  induction remaining with
  | zero => intro time h; simp [gateLoop]
  | succ r ih =>
    intro time h
    have hs : sig time = false := h time (by omega)
    have ih2 := ih (time + 1) (fun t ht => h t (by omega))
    simp only [gateLoop, hs, Bool.false_eq_true, if_false, ih2]
    omega

theorem gateLoop_lt (sig : Nat → Bool) :
    ∀ remaining time t0, time ≤ t0 → t0 < time + remaining → sig t0 = true →
      gateLoop sig time remaining < time + remaining := by
  intro remaining
  induction remaining with
  | zero => intro time t0 h1 h2 _; omega
  | succ r ih =>
    intro time t0 h1 h2 h3
    by_cases hs : sig time = true
    · simp only [gateLoop, hs, if_true]
      omega
    · have hs' : sig time = false := by
        cases h : sig time
        · rfl
        · exact absurd h hs
      have hne : t0 ≠ time := fun h => hs (h ▸ h3)
      have := ih (time + 1) t0 (by omega) (by omega) h3
      simp only [gateLoop, hs', Bool.false_eq_true, if_false]
      omega

theorem sensitive_ins_ne_zero (a : Apdu) (h : sensitiveCheck a = true) :
    (a.INS == 0) = false := by
  simp only [sensitiveCheck, Bool.and_eq_true, Bool.or_eq_true, beq_iff_eq] at h
  rcases h with ⟨-, h | h⟩ <;> simp [h]

/-- Claim C1: for a sensitive command whose confirmed signal is never
set during the bounded wait, the gate resolves locked-out exactly at
the deadline of 30 iterations (2 x 250 ms x 30 = 15 seconds), the
session writes exactly the two bytes 0x69 0x83 with response length 2
and returns to the connectivity wait, and process is never invoked. -/
theorem confirmGate_lockout_on_timeout (proc : Apdu → OutData) (env : SessionEnv)
    (h1 : env.sockOk = true) (h2 : env.connectOk = true)
    (h3 : sensitiveCheck env.apdu = true) (h4 : env.writeOk = true)
    (h5 : ∀ t, t < 30 → env.sig t = false) :
    gateWait env.sig = 30 ∧
    sessionIter proc env = ⟨0, true, some lockoutOut, false, SessionExit.toBegin⟩ ∧
    writtenBytes lockoutOut = [0x69, 0x83] ∧ lockoutOut.length = 2 ∧
    2 * gatePollHalfPeriodMs * gateDeadline = 15000 := by
  have hg : gateWait env.sig = 30 := by
    have := gateLoop_never env.sig 30 0 (by simpa using h5)
    simpa [gateWait, gateDeadline] using this
  have hins := sensitive_ins_ne_zero env.apdu h3
  refine ⟨hg, ?_, rfl, rfl, rfl⟩
  simp [sessionIter, h1, h2, h3, h4, hins, hg, gateDeadline]

/-- Claim C1 witness: the lockout scenario evaluated on the concrete
never-confirmed environment. -/
theorem confirmGate_lockout_on_timeout_witness :
    gateWait envLockout.sig = 30 ∧
    sessionIter procStub envLockout = ⟨0, true, some lockoutOut, false, SessionExit.toBegin⟩ ∧
    writtenBytes lockoutOut = [0x69, 0x83] ∧ lockoutOut.length = 2 ∧
    2 * gatePollHalfPeriodMs * gateDeadline = 15000 :=
  confirmGate_lockout_on_timeout procStub envLockout rfl rfl (by decide) rfl
    (fun _ _ => rfl)

/-- Claim C2: for a sensitive command whose confirmed signal is
observed set at some poll strictly before the deadline, the gate
resolves confirmed and process is invoked exactly once, its response
being what the session writes. -/
theorem confirmGate_confirmed_processes_once (proc : Apdu → OutData) (env : SessionEnv)
    (h1 : env.sockOk = true) (h2 : env.connectOk = true)
    (h3 : sensitiveCheck env.apdu = true)
    (h5 : ∃ t, t < 30 ∧ env.sig t = true) :
    gateWait env.sig < 30 ∧
    (sessionIter proc env).processCount = 1 ∧
    (sessionIter proc env).gateEntered = true ∧
    (sessionIter proc env).attemptedWrite = some (proc env.apdu) := by
  obtain ⟨t0, ht0, hsig⟩ := h5
  have hg : gateWait env.sig < 30 := by
    have := gateLoop_lt env.sig 30 0 t0 (by omega) (by omega) hsig
    simpa [gateWait, gateDeadline] using this
  have hne : (gateWait env.sig == gateDeadline) = false := by
    simp only [beq_eq_false_iff_ne, ne_eq, gateDeadline]
    omega
  have hins := sensitive_ins_ne_zero env.apdu h3
  refine ⟨hg, ?_, ?_, ?_⟩ <;>
    simp [sessionIter, h1, h2, h3, hins, hne]

/-- Claim C2 witness: the confirmed scenario evaluated on the concrete
environment whose proceed flag is observed set at poll 6. -/
theorem confirmGate_confirmed_processes_once_witness :
    gateWait envConfirmed.sig < 30 ∧
    (sessionIter procStub envConfirmed).processCount = 1 ∧
    (sessionIter procStub envConfirmed).gateEntered = true ∧
    (sessionIter procStub envConfirmed).attemptedWrite = some (procStub envConfirmed.apdu) :=
  confirmGate_confirmed_processes_once procStub envConfirmed rfl rfl (by decide)
    ⟨6, by omega, rfl⟩

theorem sensitiveCheck_iff (a : Apdu) :
    sensitiveCheck a = true ↔ (a.INS = 0x88 ∨ a.INS = 0x2A) ∧ a.CLA ≠ 0x10 := by
  simp only [sensitiveCheck, Bool.and_eq_true, Bool.or_eq_true, beq_iff_eq,
    bne_iff_ne, ne_eq]
  tauto

theorem sessionIter_gateEntered (proc : Apdu → OutData) (env : SessionEnv)
    (h1 : env.sockOk = true) (h2 : env.connectOk = true) :
    (sessionIter proc env).gateEntered = sensitiveCheck env.apdu := by
  by_cases hI : (env.apdu.INS == 0) = true
  · have hS : sensitiveCheck env.apdu = false := by
      simp only [beq_iff_eq] at hI
      simp [sensitiveCheck, hI]
    simp [sessionIter, h1, h2, hI, hS]
  · have hI' : (env.apdu.INS == 0) = false := by
      cases h : env.apdu.INS == 0
      · rfl
      · exact absurd h hI
    by_cases hS : sensitiveCheck env.apdu = true
    · by_cases hg : (gateWait env.sig == gateDeadline) = true <;>
        simp_all [sessionIter]
    · have hS' : sensitiveCheck env.apdu = false := by
        cases h : sensitiveCheck env.apdu
        · rfl
        · exact absurd h hS
      simp [sessionIter, h1, h2, hI', hS']

/-- Claim C3 counterexample: the parse result with class 0x00 and
instruction 0x00 is neither sensitive nor chained, so by the claim it
should bypass the gate and proceed directly to process; it does bypass
the gate, but process is never invoked for it. -/
theorem gate_iff_sensitive_cex :
    sensitiveCheck apduNull = false ∧ apduNull.CLA ≠ 0x10 ∧
    (sessionIter procStub envNull).gateEntered = false ∧
    (sessionIter procStub envNull).processCount = 0 ∧
    (sessionIter procStub envNull).attemptedWrite = none := by
  refine ⟨rfl, by decide, rfl, rfl, rfl⟩

/-- Claim C3 amended: the gate is entered iff the instruction byte is
0x88 or 0x2A and the class byte is not 0x10; every other command with a
nonzero instruction byte bypasses the gate and goes directly to
process, while a zero-instruction parse result bypasses the gate but is
dropped without invoking process. -/
theorem gate_iff_sensitive (proc : Apdu → OutData) (env : SessionEnv)
    (h1 : env.sockOk = true) (h2 : env.connectOk = true) :
    ((sessionIter proc env).gateEntered = true ↔
      (env.apdu.INS = 0x88 ∨ env.apdu.INS = 0x2A) ∧ env.apdu.CLA ≠ 0x10) ∧
    (env.apdu.INS ≠ 0 →
      ¬((env.apdu.INS = 0x88 ∨ env.apdu.INS = 0x2A) ∧ env.apdu.CLA ≠ 0x10) →
      (sessionIter proc env).gateEntered = false ∧
      (sessionIter proc env).processCount = 1 ∧
      (sessionIter proc env).attemptedWrite = some (proc env.apdu)) := by
  have hge := sessionIter_gateEntered proc env h1 h2
  constructor
  · rw [hge]
    exact sensitiveCheck_iff env.apdu
  · intro hne hnot
    have hS : sensitiveCheck env.apdu = false := by
      cases h : sensitiveCheck env.apdu
      · rfl
      · exact absurd ((sensitiveCheck_iff env.apdu).mp h) hnot
    have hI : (env.apdu.INS == 0) = false := by
      simp [hne]
    refine ⟨by rw [hge, hS], ?_, ?_⟩ <;>
      simp [sessionIter, h1, h2, hI, hS]

/-- Claim C3 amended witness: the non-sensitive get-challenge command
bypasses the gate and is processed exactly once. -/
theorem gate_iff_sensitive_witness :
    (((sessionIter procStub ⟨true, true, apduChal, fun _ => false, true⟩).gateEntered = true ↔
      (apduChal.INS = 0x88 ∨ apduChal.INS = 0x2A) ∧ apduChal.CLA ≠ 0x10) ∧
    (apduChal.INS ≠ 0 →
      ¬((apduChal.INS = 0x88 ∨ apduChal.INS = 0x2A) ∧ apduChal.CLA ≠ 0x10) →
      (sessionIter procStub ⟨true, true, apduChal, fun _ => false, true⟩).gateEntered = false ∧
      (sessionIter procStub ⟨true, true, apduChal, fun _ => false, true⟩).processCount = 1 ∧
      (sessionIter procStub ⟨true, true, apduChal, fun _ => false, true⟩).attemptedWrite
        = some (procStub apduChal))) :=
  gate_iff_sensitive procStub ⟨true, true, apduChal, fun _ => false, true⟩ rfl rfl

/-- Claim C4 counterexample: when the response write fails, the session
body jumps to the controlled-restart exit label of taskConnect, it does
not return to the blocking wait on the connectivity signal. -/
theorem writeFail_restart_cex :
    (sessionIter procStub envWriteFail).control = SessionExit.gotoRestart ∧
    (sessionIter procStub envWriteFail).control ≠ SessionExit.toBegin := by
  refine ⟨rfl, by decide⟩

/-- Claim C4 amended: whenever the session body reaches the write and
the write fails, the connection is closed and control goes to the exit
label of taskConnect, which performs the controlled process restart. -/
theorem writeFail_goes_to_restart (proc : Apdu → OutData) (env : SessionEnv)
    (h1 : env.sockOk = true) (h2 : env.connectOk = true)
    (h3 : env.apdu.INS ≠ 0) (h4 : env.writeOk = false) :
    (sessionIter proc env).control = SessionExit.gotoRestart := by
  have hI : (env.apdu.INS == 0) = false := by simp [h3]
  by_cases hS : sensitiveCheck env.apdu = true
  · by_cases hg : (gateWait env.sig == gateDeadline) = true <;>
      simp_all [sessionIter]
  · have hS' : sensitiveCheck env.apdu = false := by
      cases h : sensitiveCheck env.apdu
      · rfl
      · exact absurd h hS
    simp [sessionIter, h1, h2, hI, hS', h4]

/-- Claim C4 amended witness: a failing write on a chained command goes
to the restart path. -/
theorem writeFail_goes_to_restart_witness :
    (sessionIter procStub envWriteFailChained).control = SessionExit.gotoRestart :=
  writeFail_goes_to_restart procStub envWriteFailChained rfl rfl (by decide) rfl

/-- Claim C9: a received command whose parsed instruction byte is 0x00
makes the session body invalidate pending state, close the connection
and return to the blocking wait, invoking process zero times and never
reaching the write. -/
theorem nullIns_closes_silently (proc : Apdu → OutData) (env : SessionEnv)
    (h1 : env.sockOk = true) (h2 : env.connectOk = true) (h3 : env.apdu.INS = 0) :
    sessionIter proc env = ⟨0, false, none, true, SessionExit.toBegin⟩ := by
  simp [sessionIter, h1, h2, h3]

/-- Claim C9 witness: the zero-instruction environment evaluated
concretely. -/
theorem nullIns_closes_silently_witness :
    sessionIter procStub envNull = ⟨0, false, none, true, SessionExit.toBegin⟩ :=
  nullIns_closes_silently procStub envNull rfl rfl rfl

theorem runEvents_mod (N : Nat) :
    ∀ (evs : List WifiEvent) (k : Nat) (s : NetState),
      (∀ e ∈ evs, e = WifiEvent.gotIP ∨ e = WifiEvent.disconnected) →
      s.currNet = k % N → s.nextNet = (k + 1) % N →
      (runEvents N s evs).currNet = (k + evs.count WifiEvent.disconnected) % N ∧
      (runEvents N s evs).nextNet = (k + evs.count WifiEvent.disconnected + 1) % N := by
  intro evs
  induction evs with
  | nil =>
    intro k s _ h1 h2
    simpa [runEvents] using ⟨h1, h2⟩
  | cons e es ih =>
    intro k s hmem h1 h2
    rcases hmem e (List.mem_cons_self e es) with he | he
    · subst he
      have hstep : handleEvent N s WifiEvent.gotIP
          = { s with connected := true, connUpBit := true } := rfl
      have hcount : (WifiEvent.gotIP :: es).count WifiEvent.disconnected
          = es.count WifiEvent.disconnected := by
        simp [List.count_cons]
      rw [runEvents, hstep, hcount]
      exact ih k _ (fun x hx => hmem x (List.mem_cons_of_mem _ hx)) h1 h2
    · subst he
      have hstep : handleEvent N s WifiEvent.disconnected
          = ⟨s.nextNet, (s.nextNet + 1) % N, false, false⟩ := rfl
      have hcount : (WifiEvent.disconnected :: es).count WifiEvent.disconnected
          = es.count WifiEvent.disconnected + 1 := by
        simp [List.count_cons]
      rw [runEvents, hstep, hcount]
      have hmain := ih (k + 1) ⟨s.nextNet, (s.nextNet + 1) % N, false, false⟩
        (fun x hx => hmem x (List.mem_cons_of_mem _ hx))
        (by simpa using h2)
        (by simp [h2, Nat.mod_add_mod])
      constructor
      · rw [hmain.1]
        congr 1
        omega
      · rw [hmain.2]
        congr 1
        omega

/-- Claim C6: with N candidate networks, after the initial station
start and any interleaving of address acquisitions and k disconnects,
the network being attempted is candidate k mod N, and the index
prepared for the next attempt is (k + 1) mod N: every attempt selects
the current candidate and advances the cycle by exactly one. -/
theorem attemptIndex_cycles (N : Nat) (hN : 1 ≤ N) (c0 : Nat) (evs : List WifiEvent)
    (hevs : ∀ e ∈ evs, e = WifiEvent.gotIP ∨ e = WifiEvent.disconnected) :
    (runEvents N (handleEvent N (initNetState c0) WifiEvent.staStart) evs).currNet
      = evs.count WifiEvent.disconnected % N ∧
    (runEvents N (handleEvent N (initNetState c0) WifiEvent.staStart) evs).nextNet
      = (evs.count WifiEvent.disconnected + 1) % N := by
  have h0 := runEvents_mod N evs 0
    (handleEvent N (initNetState c0) WifiEvent.staStart) hevs
    (by simp [handleEvent, initNetState])
    (by simp [handleEvent, initNetState])
  simpa using h0

/-- Claim C6 witness: three candidates, five events of which three are
disconnects, evaluated concretely. -/
theorem attemptIndex_cycles_witness :
    (runEvents 3 (handleEvent 3 (initNetState 7) WifiEvent.staStart)
        [WifiEvent.gotIP, WifiEvent.disconnected, WifiEvent.disconnected,
         WifiEvent.gotIP, WifiEvent.disconnected]).currNet
      = [WifiEvent.gotIP, WifiEvent.disconnected, WifiEvent.disconnected,
         WifiEvent.gotIP, WifiEvent.disconnected].count WifiEvent.disconnected % 3 ∧
    (runEvents 3 (handleEvent 3 (initNetState 7) WifiEvent.staStart)
        [WifiEvent.gotIP, WifiEvent.disconnected, WifiEvent.disconnected,
         WifiEvent.gotIP, WifiEvent.disconnected]).nextNet
      = ([WifiEvent.gotIP, WifiEvent.disconnected, WifiEvent.disconnected,
          WifiEvent.gotIP, WifiEvent.disconnected].count WifiEvent.disconnected + 1) % 3 :=
  attemptIndex_cycles 3 (by omega) 7
    [WifiEvent.gotIP, WifiEvent.disconnected, WifiEvent.disconnected,
     WifiEvent.gotIP, WifiEvent.disconnected]
    (by decide)

/-- Claim C7: the boot branch runs the first-run provisioning procedure
exactly when the open succeeded and the read reported the key absent,
runs restoreState exactly when the open and the read succeeded, and
falls through to serving commands exactly when the open succeeded and
the procedure that ran returned zero; every failure leaves control at
the controlled-restart exit label. -/
theorem boot_branching (openOk : Bool) (getRes : NvsGetResult) (restoreRet initRet : Nat) :
    (bootProvisioning openOk getRes restoreRet initRet).ranInit
      = (openOk && getRes == NvsGetResult.notFound) ∧
    (bootProvisioning openOk getRes restoreRet initRet).ranRestore
      = (openOk && getRes == NvsGetResult.ok) ∧
    ((bootProvisioning openOk getRes restoreRet initRet).outcome == BootOutcome.serve)
      = (openOk &&
          ((getRes == NvsGetResult.ok && restoreRet == 0) ||
           (getRes == NvsGetResult.notFound && initRet == 0))) := by
  cases openOk <;> cases getRes <;>
    cases hr : restoreRet == 0 <;> cases hi : initRet == 0 <;>
      simp_all [bootProvisioning, bne] <;> decide

/-- Claim C8 counterexample: a storage mount failure at boot is not
resolved by the controlled restart: app_main terminates the process
with exit status 0, with no countdown, no clean unmount and no process
restart. -/
theorem fatal_restart_cex :
    handleFatal FatalKind.mountFail = mountFailPath ∧
    (handleFatal FatalKind.mountFail).processRestart = false ∧
    (handleFatal FatalKind.mountFail).countdownSeconds = 0 ∧
    (handleFatal FatalKind.mountFail).unmountsStorage = false ∧
    (handleFatal FatalKind.mountFail).exitsProcess = true := by
  refine ⟨rfl, rfl, rfl, rfl, rfl⟩

/-- Claim C8 amended: every fatal condition other than the boot mount
failure is resolved by the exit label of taskConnect, a controlled
restart that counts down 3 seconds, releases the storage mount and
restarts the process; the boot mount failure instead terminates the
process immediately. -/
theorem fatal_controlled_restart (k : FatalKind) (h : k ≠ FatalKind.mountFail) :
    handleFatal k = taskExitPath ∧
    taskExitPath.countdownSeconds = 3 ∧ taskExitPath.unmountsStorage = true ∧
    taskExitPath.processRestart = true ∧ taskExitPath.exitsProcess = false := by
  cases k <;> first
    | exact absurd rfl h
    | exact ⟨rfl, rfl, rfl, rfl, rfl⟩

/-- Claim C8 amended witness: the socket allocation failure goes
through the controlled restart. -/
theorem fatal_controlled_restart_witness :
    handleFatal FatalKind.socketAllocFail = taskExitPath ∧
    taskExitPath.countdownSeconds = 3 ∧ taskExitPath.unmountsStorage = true ∧
    taskExitPath.processRestart = true ∧ taskExitPath.exitsProcess = false :=
  fatal_controlled_restart FatalKind.socketAllocFail (by decide)

/-- Claim C5 counterexample: on a provisioned device, a restoreState
failure sets the hardRst flag and the next checkReset poll erases the
key named initialized, although the physical hard-reset input never
fired. -/
theorem keyErase_requires_physical_cex :
    (devRun provisionedBoot
        [DevEvent.restoreFailure, DevEvent.monitorPoll true]).keyErased = true ∧
    (devRun provisionedBoot
        [DevEvent.restoreFailure, DevEvent.monitorPoll true]).physPressed = false := by
  refine ⟨rfl, rfl⟩

theorem devStep_flag_inv (s : DeviceState) (e : DevEvent)
    (h : s.keyErased = true → s.hardRst = true) :
    (devStep s e).keyErased = true → (devStep s e).hardRst = true := by
  cases e with
  | physReset => intro _; simp [devStep]
  | restoreFailure =>
    by_cases hc : (s.keyPresent && !s.restarted) = true
    · intro hk
      simp only [devStep, hc, if_true]
    · have hc' : (s.keyPresent && !s.restarted) = false := by
        cases hh : s.keyPresent && !s.restarted
        · rfl
        · exact absurd hh hc
      simpa [devStep, hc'] using h
  | monitorPoll b =>
    by_cases hc : (!s.restarted && s.hardRst && b && s.keyPresent) = true
    · intro _
      have hrst : s.hardRst = true := by
        simp only [Bool.and_eq_true] at hc
        exact hc.1.1.2
      simp only [devStep]
      rw [if_pos hc]
      exact hrst
    · have hc' : (!s.restarted && s.hardRst && b && s.keyPresent) = false := by
        cases hh : !s.restarted && s.hardRst && b && s.keyPresent
        · rfl
        · exact absurd hh hc
      simpa [devStep, hc'] using h

theorem devRun_flag_inv :
    ∀ (evs : List DevEvent) (s : DeviceState),
      (s.keyErased = true → s.hardRst = true) →
      (devRun s evs).keyErased = true → (devRun s evs).hardRst = true := by
  intro evs
  induction evs with
  | nil => intro s h; exact h
  | cons e es ih =>
    intro s h
    exact ih (devStep s e) (devStep_flag_inv s e h)

/-- Claim C5 amended: starting from a provisioned device, the key named
initialized is erased only while the hardRst flag is set, and the flag
has exactly two writers: the physical hard-reset input handler and the
restore-failure branch of taskConnect, either of which can precede the
erase. -/
theorem keyErase_only_with_flag (evs : List DevEvent)
    (h : (devRun provisionedBoot evs).keyErased = true) :
    (devRun provisionedBoot evs).hardRst = true :=
  devRun_flag_inv evs provisionedBoot (by intro hk; exact absurd hk (by decide)) h

/-- Claim C5 amended witness: a physical press followed by a poll
erases the key with the flag set. -/
theorem keyErase_only_with_flag_witness :
    (devRun provisionedBoot
        [DevEvent.physReset, DevEvent.monitorPoll true]).keyErased = true ∧
    (devRun provisionedBoot
        [DevEvent.physReset, DevEvent.monitorPoll true]).hardRst = true :=
  ⟨rfl, keyErase_only_with_flag [DevEvent.physReset, DevEvent.monitorPoll true] rfl⟩

/-- Claim C10: with the hardRst flag set while the key named
initialized is absent, every checkReset poll leaves the device state
unchanged whatever the nvs_open outcomes: the erase fails with the key
absent, the restart branch is skipped, the flag is never cleared, and
the monitor goes back to sleep for its fixed 4000 ms period, retrying
indefinitely. -/
theorem resetMonitor_stuck_when_key_absent (polls : List Bool) :
    devRun unprovisionedWithReset (polls.map DevEvent.monitorPoll)
      = unprovisionedWithReset ∧
    (devRun unprovisionedWithReset (polls.map DevEvent.monitorPoll)).restarted = false ∧
    (devRun unprovisionedWithReset (polls.map DevEvent.monitorPoll)).hardRst = true ∧
    (devRun unprovisionedWithReset (polls.map DevEvent.monitorPoll)).keyErased = false ∧
    checkResetDelayMs = 4000 := by
  have key : ∀ b, devStep unprovisionedWithReset (DevEvent.monitorPoll b)
      = unprovisionedWithReset := by
    intro b
    simp [devStep, unprovisionedWithReset]
  have main : ∀ ps : List Bool,
      devRun unprovisionedWithReset (ps.map DevEvent.monitorPoll)
        = unprovisionedWithReset := by
    intro ps
    induction ps with
    | nil => rfl
    | cons b bs ih =>
      rw [List.map_cons, devRun, key b]
      exact ih
  refine ⟨main polls, ?_, ?_, ?_, rfl⟩ <;> rw [main polls] <;> rfl
